import Mathlib

/-!
Verification of the DynamoDB continuous incremental exports stack.

The core artifact is the Step Functions state machine built in
`deployStepFunction` of the exports stack, plus the provisioning-time
configuration checks (`sanityChecks`), the EventBridge schedule settings,
and the per-table nested-stack fan-out in the CLI entry point.

The state machine graph (states, `.next` successors, Choice targets in
`when`-order, `addCatch` lists in call order, `addRetry` error lists) is
embedded below directly from the source wiring.  The condition builder and
node builder modules are not part of the sources; the meaning of each
Choice condition and the Task/Pass/Wait/terminal kind of each state are
modelled from the spec (see the doc comments marked "Modelled from the
spec").
-/

namespace DdbIncExport

/-- The states of the export lifecycle state machine, one constructor per
node referenced in `deployStepFunction`.  The source node named
initializeWorkflowState is called `initWorkflowStateChoice` here. -/
inductive Node
  | getParametersTask
  | cleanParametersPassState
  | checkWorkflowAction
  | workflowPaused
  | ensureTableExistsTask
  | describeContinuousBackupsAwsServiceTask
  | pitrEnabledChoice
  | initWorkflowStateChoice
  | notifyOnFullExportRunning
  | fullExportStillRunning
  | notifyOnPitrGap
  | pitrGapFound
  | notifyOnPitrDisabled
  | pitrDisabledFail
  | isLastIncrementalExportParameterValid
  | useLastIncrementalExportTimeParameterValue
  | useFullExportTimeParameterValue
  | getNextIncrementalExportTimeLambdaInvoke
  | checkIncrementalExportNeeded
  | incrementalExportNotNeeded
  | isEarliestRestoreDateTimeValidChoice
  | setWorkflowStateParameterToPitrGap
  | notifyOnIncrementalExportStartTimeOutsidePitrWindow
  | incrementalExportStartTimeOutsidePitrWindowFail
  | executeIncrementalExport
  | setLastIncrementalExportTimeParameter
  | describeIncrementalExport
  | incrementalExportCompletedState
  | incrementalExportParameterTrue
  | incrementalExportParameterFalse
  | notifyOnIncrementalExport
  | didIncrementalExportCompleteSuccessfully
  | incrementalExportFailed
  | incrementalExportSucceeded
  | waitForIncrementalExport
  | executeFullExport
  | setFullExportTimeParameter
  | setWorkflowActionParameterToRun
  | setWorkflowStateParameterToNormal
  | setEmptyWorkflowInitiatedParameter
  | deleteLastIncrementalExportTimeParameter
  | describeFullExport
  | fullExportCompletedState
  | workflowInitializedParameterTrue
  | workflowInitializedParameterFalse
  | setWorkflowInitiatedParameter
  | notifyOnFullExport
  | didWorkflowInitiateSuccessfully
  | fullExportFailed
  | fullExportSucceeded
  | waitForFullExport
  | notifyOnTaskFailed
  | taskFailedNode
  deriving DecidableEq, Fintype

/-- Step Functions state kinds. -/
inductive StateKind
  | task
  | choice
  | passState
  | waitState
  | succeedEnd
  | failEnd
  deriving DecidableEq, Fintype

/-- Modelled from the spec: the node builder is not part of the sources.
Kinds follow the spec's description of the graph: parameter reads/writes,
export invocations, describe/polling calls, the Lambda invoke and every
notification publish are task-like steps; the check/did/is/completed
choices branch; use/clean/parameter-value states pass data; waitFor states
wait; and the named end states terminate the cycle (Fail for the nodes the
source names as failures, Succeed otherwise). -/
def kind : Node → StateKind
  | .getParametersTask => .task
  | .cleanParametersPassState => .passState
  | .checkWorkflowAction => .choice
  | .workflowPaused => .succeedEnd
  | .ensureTableExistsTask => .task
  | .describeContinuousBackupsAwsServiceTask => .task
  | .pitrEnabledChoice => .choice
  | .initWorkflowStateChoice => .choice
  | .notifyOnFullExportRunning => .task
  | .fullExportStillRunning => .succeedEnd
  | .notifyOnPitrGap => .task
  | .pitrGapFound => .succeedEnd
  | .notifyOnPitrDisabled => .task
  | .pitrDisabledFail => .failEnd
  | .isLastIncrementalExportParameterValid => .choice
  | .useLastIncrementalExportTimeParameterValue => .passState
  | .useFullExportTimeParameterValue => .passState
  | .getNextIncrementalExportTimeLambdaInvoke => .task
  | .checkIncrementalExportNeeded => .choice
  | .incrementalExportNotNeeded => .succeedEnd
  | .isEarliestRestoreDateTimeValidChoice => .choice
  | .setWorkflowStateParameterToPitrGap => .task
  | .notifyOnIncrementalExportStartTimeOutsidePitrWindow => .task
  | .incrementalExportStartTimeOutsidePitrWindowFail => .failEnd
  | .executeIncrementalExport => .task
  | .setLastIncrementalExportTimeParameter => .task
  | .describeIncrementalExport => .task
  | .incrementalExportCompletedState => .choice
  | .incrementalExportParameterTrue => .passState
  | .incrementalExportParameterFalse => .passState
  | .notifyOnIncrementalExport => .task
  | .didIncrementalExportCompleteSuccessfully => .choice
  | .incrementalExportFailed => .failEnd
  | .incrementalExportSucceeded => .succeedEnd
  | .waitForIncrementalExport => .waitState
  | .executeFullExport => .task
  | .setFullExportTimeParameter => .task
  | .setWorkflowActionParameterToRun => .task
  | .setWorkflowStateParameterToNormal => .task
  | .setEmptyWorkflowInitiatedParameter => .task
  | .deleteLastIncrementalExportTimeParameter => .task
  | .describeFullExport => .task
  | .fullExportCompletedState => .choice
  | .workflowInitializedParameterTrue => .passState
  | .workflowInitializedParameterFalse => .passState
  | .setWorkflowInitiatedParameter => .task
  | .notifyOnFullExport => .task
  | .didWorkflowInitiateSuccessfully => .choice
  | .fullExportFailed => .failEnd
  | .fullExportSucceeded => .succeedEnd
  | .waitForFullExport => .waitState
  | .notifyOnTaskFailed => .task
  | .taskFailedNode => .failEnd

/-- A state is task-like when it is a Task state. -/
def isTasklike (n : Node) : Bool := kind n == .task

/-- The `.next` successor of each non-Choice state, from the chains built
in `deployStepFunction`.  Choice states route through `choiceTargets`;
terminal states have no successor. -/
def succOk : Node → Option Node
  | .getParametersTask => some .cleanParametersPassState
  | .cleanParametersPassState => some .checkWorkflowAction
  | .ensureTableExistsTask => some .describeContinuousBackupsAwsServiceTask
  | .describeContinuousBackupsAwsServiceTask => some .pitrEnabledChoice
  | .notifyOnFullExportRunning => some .fullExportStillRunning
  | .notifyOnPitrGap => some .pitrGapFound
  | .notifyOnPitrDisabled => some .pitrDisabledFail
  | .useLastIncrementalExportTimeParameterValue => some .getNextIncrementalExportTimeLambdaInvoke
  | .useFullExportTimeParameterValue => some .getNextIncrementalExportTimeLambdaInvoke
  | .getNextIncrementalExportTimeLambdaInvoke => some .checkIncrementalExportNeeded
  | .setWorkflowStateParameterToPitrGap => some .notifyOnIncrementalExportStartTimeOutsidePitrWindow
  | .notifyOnIncrementalExportStartTimeOutsidePitrWindow =>
      some .incrementalExportStartTimeOutsidePitrWindowFail
  | .executeIncrementalExport => some .setLastIncrementalExportTimeParameter
  | .setLastIncrementalExportTimeParameter => some .describeIncrementalExport
  | .describeIncrementalExport => some .incrementalExportCompletedState
  | .incrementalExportParameterTrue => some .notifyOnIncrementalExport
  | .incrementalExportParameterFalse => some .notifyOnIncrementalExport
  | .notifyOnIncrementalExport => some .didIncrementalExportCompleteSuccessfully
  | .waitForIncrementalExport => some .describeIncrementalExport
  | .executeFullExport => some .setFullExportTimeParameter
  | .setFullExportTimeParameter => some .setWorkflowActionParameterToRun
  | .setWorkflowActionParameterToRun => some .setWorkflowStateParameterToNormal
  | .setWorkflowStateParameterToNormal => some .setEmptyWorkflowInitiatedParameter
  | .setEmptyWorkflowInitiatedParameter => some .deleteLastIncrementalExportTimeParameter
  | .deleteLastIncrementalExportTimeParameter => some .describeFullExport
  | .describeFullExport => some .fullExportCompletedState
  | .workflowInitializedParameterTrue => some .setWorkflowInitiatedParameter
  | .workflowInitializedParameterFalse => some .setWorkflowInitiatedParameter
  | .setWorkflowInitiatedParameter => some .notifyOnFullExport
  | .notifyOnFullExport => some .didWorkflowInitiateSuccessfully
  | .waitForFullExport => some .describeFullExport
  | .notifyOnTaskFailed => some .taskFailedNode
  | _ => none

/-- The targets of each Choice state in the order of its `when` clauses,
followed by the `afterwards includeOtherwise` target. -/
def choiceTargets : Node → List Node
  | .checkWorkflowAction => [.workflowPaused, .ensureTableExistsTask]
  | .pitrEnabledChoice => [.initWorkflowStateChoice, .notifyOnPitrDisabled]
  | .initWorkflowStateChoice =>
      [.notifyOnFullExportRunning, .executeFullExport, .notifyOnPitrGap,
       .executeFullExport, .isLastIncrementalExportParameterValid]
  | .isLastIncrementalExportParameterValid =>
      [.useLastIncrementalExportTimeParameterValue, .useFullExportTimeParameterValue]
  | .checkIncrementalExportNeeded =>
      [.incrementalExportNotNeeded, .isEarliestRestoreDateTimeValidChoice]
  | .isEarliestRestoreDateTimeValidChoice =>
      [.setWorkflowStateParameterToPitrGap, .executeIncrementalExport]
  | .incrementalExportCompletedState =>
      [.incrementalExportParameterTrue, .incrementalExportParameterFalse, .waitForIncrementalExport]
  | .didIncrementalExportCompleteSuccessfully =>
      [.incrementalExportFailed, .incrementalExportSucceeded]
  | .fullExportCompletedState =>
      [.workflowInitializedParameterTrue, .workflowInitializedParameterFalse, .waitForFullExport]
  | .didWorkflowInitiateSuccessfully => [.fullExportFailed, .fullExportSucceeded]
  | _ => []

/-- Error classes thrown by the tasks, as named in the `addCatch` and
`addRetry` calls; `genericOther` stands for any other error. -/
inductive ErrClass
  | ssmSdkClient
  | ddbSdkClient
  | ssmParamNotFound
  | ddbInvalidExportTime
  | genericOther
  deriving DecidableEq, Fintype

/-- An entry of a Catch or Retry error list: the wildcard States.ALL or a
specific error class. -/
inductive Matcher
  | statesAll
  | only (e : ErrClass)
  deriving DecidableEq, Fintype

/-- Whether a matcher matches a thrown error class. -/
def matcherMatches : Matcher → ErrClass → Bool
  | .statesAll, _ => true
  | .only e, f => e == f

/-- The Catch list of each state, in `addCatch` call order (the order the
catchers are rendered and scanned in). -/
def catchers : Node → List (Matcher × Node)
  | .getParametersTask => [(.statesAll, .notifyOnTaskFailed)]
  | .ensureTableExistsTask => [(.statesAll, .notifyOnTaskFailed)]
  | .describeContinuousBackupsAwsServiceTask => [(.statesAll, .notifyOnTaskFailed)]
  | .notifyOnFullExportRunning => [(.statesAll, .notifyOnTaskFailed)]
  | .notifyOnPitrGap => [(.statesAll, .notifyOnTaskFailed)]
  | .notifyOnPitrDisabled => [(.statesAll, .notifyOnTaskFailed)]
  | .getNextIncrementalExportTimeLambdaInvoke => [(.statesAll, .notifyOnTaskFailed)]
  | .setWorkflowStateParameterToPitrGap => [(.statesAll, .notifyOnTaskFailed)]
  | .executeIncrementalExport =>
      [(.statesAll, .notifyOnTaskFailed),
       (.only .ddbInvalidExportTime, .setWorkflowStateParameterToPitrGap)]
  | .setLastIncrementalExportTimeParameter => [(.statesAll, .notifyOnTaskFailed)]
  | .describeIncrementalExport => [(.statesAll, .notifyOnTaskFailed)]
  | .notifyOnIncrementalExport => [(.statesAll, .notifyOnTaskFailed)]
  | .setWorkflowInitiatedParameter => [(.statesAll, .notifyOnTaskFailed)]
  | .notifyOnFullExport => [(.statesAll, .notifyOnTaskFailed)]
  | .executeFullExport => [(.statesAll, .notifyOnTaskFailed)]
  | .setFullExportTimeParameter => [(.statesAll, .notifyOnTaskFailed)]
  | .setWorkflowActionParameterToRun =>
      [(.only .ssmParamNotFound, .setEmptyWorkflowInitiatedParameter),
       (.statesAll, .notifyOnTaskFailed)]
  | .setWorkflowStateParameterToNormal =>
      [(.only .ssmParamNotFound, .setEmptyWorkflowInitiatedParameter),
       (.statesAll, .notifyOnTaskFailed)]
  | .setEmptyWorkflowInitiatedParameter => [(.statesAll, .notifyOnTaskFailed)]
  | .deleteLastIncrementalExportTimeParameter =>
      [(.only .ssmParamNotFound, .describeFullExport),
       (.statesAll, .notifyOnTaskFailed)]
  | .describeFullExport => [(.statesAll, .notifyOnTaskFailed)]
  | _ => []

/-- The error lists of each state's retriers in `addRetry` call order. -/
def retriedErrors : Node → List Matcher
  | .getParametersTask => [.only .ssmSdkClient]
  | .ensureTableExistsTask => [.only .ddbSdkClient]
  | .describeContinuousBackupsAwsServiceTask => [.only .ddbSdkClient]
  | .setWorkflowStateParameterToPitrGap => [.only .ssmSdkClient]
  | .executeIncrementalExport => [.only .ddbInvalidExportTime, .only .ddbSdkClient]
  | .setLastIncrementalExportTimeParameter => [.only .ssmSdkClient]
  | .describeIncrementalExport => [.only .ddbSdkClient]
  | .setWorkflowInitiatedParameter => [.only .ssmSdkClient]
  | .executeFullExport => [.only .ddbSdkClient]
  | .setFullExportTimeParameter => [.only .ssmSdkClient]
  | .setWorkflowActionParameterToRun => [.only .ssmSdkClient]
  | .setWorkflowStateParameterToNormal => [.only .ssmSdkClient]
  | .setEmptyWorkflowInitiatedParameter => [.only .ssmSdkClient]
  | .deleteLastIncrementalExportTimeParameter => [.only .ssmSdkClient]
  | .describeFullExport => [.only .ddbSdkClient]
  | _ => []

/-- Where an error that escapes a state's retriers is routed: the first
catcher in scan order whose matcher matches, per the States Language. -/
def resolveFault (n : Node) (e : ErrClass) : Option Node :=
  (catchers n).findSome? fun c => if matcherMatches c.1 e then some c.2 else none

/-- A Retry policy as configured by `addRetry`. -/
structure RetryPolicy where
  intervalSeconds : Nat
  maxAttempts : Nat
  backoffRate : Nat
  deriving DecidableEq

/-- The retry policy attached to `executeIncrementalExport` for
DynamoDb.InvalidExportTimeException: 1 minute interval, 2 attempts,
backoff rate 1. -/
def invalidExportTimeRetryPolicy : RetryPolicy :=
  { intervalSeconds := 60, maxAttempts := 2, backoffRate := 1 }

/-- The waiting times (seconds) before each retry of a policy. -/
def retryDelaysOf (p : RetryPolicy) : List Nat :=
  (List.range p.maxAttempts).map fun i => p.intervalSeconds * p.backoffRate ^ i

/-- Notifications published to the Notification Channel by each state.
Modelled from the spec: the notify states publish to the notification
topic. -/
inductive NoteKind
  | taskFailedNote
  | pitrGapNote
  | pitrDisabledNote
  | fullExportRunningNote
  | startTimeOutsidePitrWindowNote
  | incrementalExportOutcomeNote
  | fullExportOutcomeNote
  deriving DecidableEq

/-- Which notification, if any, a state publishes. -/
def notifiesOf : Node → Option NoteKind
  | .notifyOnTaskFailed => some .taskFailedNote
  | .notifyOnPitrGap => some .pitrGapNote
  | .notifyOnPitrDisabled => some .pitrDisabledNote
  | .notifyOnFullExportRunning => some .fullExportRunningNote
  | .notifyOnIncrementalExportStartTimeOutsidePitrWindow => some .startTimeOutsidePitrWindowNote
  | .notifyOnIncrementalExport => some .incrementalExportOutcomeNote
  | .notifyOnFullExport => some .fullExportOutcomeNote
  | _ => none

/-- Parameter-store effects of the set/delete states.  Modelled from the
spec: each set/delete state writes the parameter its source name says. -/
inductive ParamWrite
  | fullExportTimeWrite
  | lastIncrementalExportTimeWrite
  | lastIncrementalExportTimeDelete
  | workflowActionRunWrite
  | workflowStateNormalWrite
  | workflowStatePitrGapWrite
  | workflowInitiatedClearWrite
  | workflowInitiatedOutcomeWrite
  deriving DecidableEq

/-- Which parameter write, if any, a state performs. -/
def writesOf : Node → Option ParamWrite
  | .setFullExportTimeParameter => some .fullExportTimeWrite
  | .setLastIncrementalExportTimeParameter => some .lastIncrementalExportTimeWrite
  | .deleteLastIncrementalExportTimeParameter => some .lastIncrementalExportTimeDelete
  | .setWorkflowActionParameterToRun => some .workflowActionRunWrite
  | .setWorkflowStateParameterToNormal => some .workflowStateNormalWrite
  | .setWorkflowStateParameterToPitrGap => some .workflowStatePitrGapWrite
  | .setEmptyWorkflowInitiatedParameter => some .workflowInitiatedClearWrite
  | .setWorkflowInitiatedParameter => some .workflowInitiatedOutcomeWrite
  | _ => none

/-- Whether a state starts an export job on the backup subsystem. -/
def isExportInvocation : Node → Bool
  | .executeFullExport => true
  | .executeIncrementalExport => true
  | _ => false

/-- The operator pause/run switch parameter. -/
inductive WorkflowAction
  | pause
  | run
  deriving DecidableEq, Fintype

/-- The workflow lifecycle phase parameter. -/
inductive WorkflowState
  | normal
  | pitrGap
  deriving DecidableEq, Fintype

/-- The status reported for an export job by the describe calls. -/
inductive JobStatus
  | inProgress
  | completed
  | failed
  deriving DecidableEq, Fintype

/-- The facts a cycle's Choice conditions read.  The parameter values and
the PITR flag come from the parameter store and the continuous-backups
description; the remaining fields are the already-evaluated outcomes of
the comparisons the condition builder performs on execution data
(condition builder is not part of the sources, so these are modelled from
the spec). -/
structure CondEnv where
  workflowAction : WorkflowAction
  pitrEnabled : Bool
  fullExportRunningFlag : Bool
  workflowState : WorkflowState
  workflowInitiated : Bool
  resetCondition : Bool
  lastIncrementalExportTimeValid : Bool
  nextIncrementalExportEndTimeIsPast : Bool
  earliestRestoreAfterStartTime : Bool
  incrementalExportJobStatus : JobStatus
  fullExportJobStatus : JobStatus
  incrementalExportStateFalse : Bool
  workflowInitializedOutputFalse : Bool
  deriving DecidableEq

/-- Modelled from the spec: the workflow is paused when WorkflowAction is
PAUSE. -/
def isWorkflowPausedCond (env : CondEnv) : Bool := env.workflowAction == .pause

/-- Modelled from the spec: the reset-with-full-export condition requires
WorkflowState PITR_GAP together with the reset condition. -/
def resetWithFullExportAgainCond (env : CondEnv) : Bool :=
  (env.workflowState == .pitrGap) && env.resetCondition

/-- Modelled from the spec: WorkflowState is PITR_GAP. -/
def pitrGapWorkflowStateCond (env : CondEnv) : Bool := env.workflowState == .pitrGap

/-- Modelled from the spec: the full-export branch fires when the workflow
has not been initialized. -/
def workflowNotInitiatedCond (env : CondEnv) : Bool := !env.workflowInitiated

/-- Modelled from the spec: the incremental export is not needed when the
computed window end time is at or before the current time. -/
def nextIncrementalExportEndTimeIsPastCurrentTime (endTime currentTime : Nat) : Bool :=
  decide (endTime ≤ currentTime)

/-- Modelled from the spec: the PITR window is violated when the earliest
restorable time is strictly greater than the computed export start time. -/
def earliestRestoreDateTimeIsGreaterThanExportStartTime
    (earliestRestoreTime exportStartTime : Nat) : Bool :=
  decide (exportStartTime < earliestRestoreTime)

/-- The branch taken by each Choice state: the index of the first `when`
condition that holds, in source order, wrapping the conditions of the
condition builder; the last index is the `afterwards includeOtherwise`
default. -/
def choiceSel (env : CondEnv) : Node → Nat
  | .checkWorkflowAction => if isWorkflowPausedCond env then 0 else 1
  | .pitrEnabledChoice => if env.pitrEnabled then 0 else 1
  | .initWorkflowStateChoice =>
      if env.fullExportRunningFlag then 0
      else if resetWithFullExportAgainCond env then 1
      else if pitrGapWorkflowStateCond env then 2
      else if workflowNotInitiatedCond env then 3
      else 4
  | .isLastIncrementalExportParameterValid =>
      if env.lastIncrementalExportTimeValid then 0 else 1
  | .checkIncrementalExportNeeded =>
      if env.nextIncrementalExportEndTimeIsPast then 0 else 1
  | .isEarliestRestoreDateTimeValidChoice =>
      if env.earliestRestoreAfterStartTime then 0 else 1
  | .incrementalExportCompletedState =>
      if env.incrementalExportJobStatus == .completed then 0
      else if env.incrementalExportJobStatus == .failed then 1
      else 2
  | .didIncrementalExportCompleteSuccessfully =>
      if env.incrementalExportStateFalse then 0 else 1
  | .fullExportCompletedState =>
      if env.fullExportJobStatus == .completed then 0
      else if env.fullExportJobStatus == .failed then 1
      else 2
  | .didWorkflowInitiateSuccessfully =>
      if env.workflowInitializedOutputFalse then 0 else 1
  | _ => 0

/-- One fault-free step of the machine under a fixed condition
environment. -/
def stepOk (env : CondEnv) (n : Node) : Option Node :=
  match kind n with
  | .choice => (choiceTargets n)[choiceSel env n]?
  | .succeedEnd => none
  | .failEnd => none
  | _ => succOk n

/-- The fault-free run of the machine from a state, fuel-bounded. -/
def runOk (env : CondEnv) : Nat → Node → List Node
  | 0, n => [n]
  | fuel + 1, n =>
      match stepOk env n with
      | none => [n]
      | some m => n :: runOk env fuel m

/-- The fault-free cycle trace from the start state. -/
def cycleTrace (env : CondEnv) : List Node := runOk env 20 .getParametersTask

/-- A short fault-free trace from the start state: long enough to reach
the state the PITR-enabled choice commits the cycle to. -/
def commitTrace (env : CondEnv) : List Node := runOk env 9 .getParametersTask

/-- Events that can move the machine between states: a normal completion,
a Choice branch by index, or a fault of a given error class routed through
the Catch lists. -/
inductive Ev
  | ok
  | branch (i : Fin 5)
  | fault (e : ErrClass)
  deriving DecidableEq, Fintype

/-- Whether event `ev` can move the machine from `a` to `b`.  Faults can
occur at any task (transient errors are retried in place first, which does
not change the routing) and follow the first matching catcher. -/
def edgeOK (a : Node) (ev : Ev) (b : Node) : Bool :=
  match ev with
  | .ok =>
      match kind a with
      | .choice => false
      | _ => succOk a == some b
  | .branch i => (kind a == .choice) && ((choiceTargets a)[(i : Nat)]? == some b)
  | .fault e => (kind a == .task) && (resolveFault a e == some b)

/-- Whether a step list is a valid run of the machine from a state. -/
def chainOk : Node → List (Ev × Node) → Bool
  | _, [] => true
  | n, (ev, m) :: rest => edgeOK n ev m && chainOk m rest

/-- The states a run visits, in order. -/
def visited (start : Node) (steps : List (Ev × Node)) : List Node :=
  start :: steps.map Prod.snd

/-- The final state of a run. -/
def lastNode : Node → List (Ev × Node) → Node
  | n, [] => n
  | _, (_, m) :: rest => lastNode m rest

/-- The inputs that determine which branch the PITR-enabled choice takes:
WorkflowAction, PITR enablement, the full-export-still-running condition,
WorkflowState, WorkflowInitiated and the reset condition. -/
structure CycleKey where
  workflowAction : WorkflowAction
  pitrEnabled : Bool
  fullExportRunningFlag : Bool
  workflowState : WorkflowState
  workflowInitiated : Bool
  resetCondition : Bool
  deriving DecidableEq

/-- Projection of a condition environment onto the inputs of the
PITR-enabled choice. -/
def keyOf (env : CondEnv) : CycleKey :=
  ⟨env.workflowAction, env.pitrEnabled, env.fullExportRunningFlag, env.workflowState,
   env.workflowInitiated, env.resetCondition⟩

/-- The path a cycle commits to. -/
inductive CycleOutcome
  | pausedOutcome
  | pitrDisabledOutcome
  | waitFullExportRunning
  | fullExportPath
  | pitrGapNotify
  | incrementalExportPath
  deriving DecidableEq, Fintype

/-- The cycle decision, read off the nested `when` chains of
`checkWorkflowAction`, `pitrEnabledChoice` and the workflow-state choice in
source order (first matching condition wins). -/
def decideCycle (k : CycleKey) : CycleOutcome :=
  if k.workflowAction == .pause then .pausedOutcome
  else if k.pitrEnabled then
    if k.fullExportRunningFlag then .waitFullExportRunning
    else if (k.workflowState == .pitrGap) && k.resetCondition then .fullExportPath
    else if k.workflowState == .pitrGap then .pitrGapNotify
    else if !k.workflowInitiated then .fullExportPath
    else .incrementalExportPath
  else .pitrDisabledOutcome

/-- The claimed priority cascade of the PITR-enabled choice, written
following the claim: (1) full export still running, (2) PITR_GAP and
reset, (3) PITR_GAP, (4) not initiated, (5) otherwise incremental. -/
def claimedPriorityOutcome (k : CycleKey) : CycleOutcome :=
  if k.fullExportRunningFlag then .waitFullExportRunning
  else if (k.workflowState == .pitrGap) && k.resetCondition then .fullExportPath
  else if k.workflowState == .pitrGap then .pitrGapNotify
  else if !k.workflowInitiated then .fullExportPath
  else .incrementalExportPath

/-- The effective guards of the five branches of the PITR-enabled choice
once the strict priority order is applied. -/
def effectiveGuards (k : CycleKey) : List Bool :=
  [k.fullExportRunningFlag,
   !k.fullExportRunningFlag && (k.workflowState == .pitrGap) && k.resetCondition,
   !k.fullExportRunningFlag && (k.workflowState == .pitrGap) && !k.resetCondition,
   !k.fullExportRunningFlag && !(k.workflowState == .pitrGap) && !k.workflowInitiated,
   !k.fullExportRunningFlag && !(k.workflowState == .pitrGap) && k.workflowInitiated]

/-- A condition environment for a cycle on the incremental side of the
workflow-state choice: WorkflowAction RUN, PITR enabled, no full export
running, WorkflowState NORMAL, workflow initiated; the remaining condition
facts are the arguments. -/
def incrementalScenario (resetCondition lastIncValid endTimePast earliestAfterStart : Bool)
    (incJob fullJob : JobStatus) (incStateFalse initOutputFalse : Bool) : CondEnv :=
  ⟨.run, true, false, .normal, true, resetCondition, lastIncValid, endTimePast,
   earliestAfterStart, incJob, fullJob, incStateFalse, initOutputFalse⟩

/-- The provisioning-time configuration check of the exports stack: the
incremental export window size must lie in [15, 24*60] minutes, otherwise
an error is thrown before any resource is created. -/
def sanityChecks (incrementalExportWindowSizeInMinutes : Int) : Except String Unit :=
  if incrementalExportWindowSizeInMinutes < 15 ∨ incrementalExportWindowSizeInMinutes > 24 * 60 then
    Except.error "incrementalExportWindowSizeInMinutes has to be between 15 minutes and 1,440 minutes (24h)"
  else Except.ok ()

/-- Whether the configuration check throws the window-size range error. -/
def throwsRangeError (w : Int) : Bool :=
  match sanityChecks w with
  | .error _ => true
  | .ok _ => false

/-- The settings of the step-function trigger schedule. -/
structure ScheduleSettings where
  rateMinutes : Nat
  flexibleWindowMinutes : Nat
  maximumRetryAttempts : Nat
  maximumEventAgeSeconds : Nat
  deriving DecidableEq

/-- The schedule created in `init`: the rate is the window size divided by
3 (integer floor), the flexible time window is 15 minutes, at most 1 retry
is attempted, and the maximum event age is schedulerTime/2 minutes
converted to seconds (the conversion of the half-minute value is exact:
schedulerTime/2 minutes is schedulerTime*60/2 seconds). -/
def scheduleFor (incrementalExportWindowSizeInMinutes : Nat) : ScheduleSettings :=
  let schedulerTime := incrementalExportWindowSizeInMinutes / 3
  { rateMinutes := schedulerTime
  , flexibleWindowMinutes := 15
  , maximumRetryAttempts := 1
  , maximumEventAgeSeconds := schedulerTime * 60 / 2 }

/-- The configuration fields the entry point reads when fanning out one
nested export stack per source table. -/
structure AppConfig where
  deploymentAlias : String
  sourceDynamoDbTableName : String
  dataExportBucketPfx : String
  deriving DecidableEq

/-- The per-table configuration each nested export stack receives. -/
structure PerTableConfig where
  deploymentAlias : String
  sourceDynamoDbTableName : String
  dataExportBucketPfx : String
  deriving DecidableEq

/-- The short table name of the entry point: the last hyphen-separated
segment when the name is longer than 10 characters, else the whole name,
lowercased. -/
def shortTableNameOf (tableName : String) : String :=
  (if tableName.length > 10 then (tableName.splitOn "-").getLastD "" else tableName).toLower

/-- The per-table configuration built for one table name. -/
def stackForTable (cfg : AppConfig) (tableName : String) : PerTableConfig :=
  { deploymentAlias := cfg.deploymentAlias ++ "-" ++ shortTableNameOf tableName
  , sourceDynamoDbTableName := tableName
  , dataExportBucketPfx := cfg.dataExportBucketPfx ++ "/" ++ tableName }

/-- The nested stacks the entry point creates: the comma-split source
table list, filtered to entries whose trimmed name is non-empty, each
mapped to its per-table configuration. -/
def deployedStacks (cfg : AppConfig) : List PerTableConfig :=
  ((cfg.sourceDynamoDbTableName.splitOn ",").filter
    fun t => decide (t.trim.length > 0)).map (stackForTable cfg)

/-- The spec-side short suffix: lowercased last hyphen-separated segment
for names longer than 10 characters, else the lowercased whole name. -/
def specShortSuffix (tableName : String) : String :=
  if 10 < tableName.length then ((tableName.splitOn "-").getLastD "").toLower
  else tableName.toLower

/-- C2's claim as a property of runs: FullExportTime is set only after the
full export completes, i.e. any valid run from the start state that
reaches the FullExportTime write has taken the completed branch of the
full-export polling choice. -/
def fullExportTimeOnlyAfterCompletion : Prop :=
  ∀ steps : List (Ev × Node), chainOk .getParametersTask steps = true →
    Node.setFullExportTimeParameter ∈ visited .getParametersTask steps →
    (Ev.branch 0, Node.workflowInitializedParameterTrue) ∈ steps

/-- A concrete run: the full-export path is entered because the workflow
is not initiated, the export is started, FullExportTime is written, and
then the WorkflowAction write faults with an unclassified error, routing
to Notify-And-Fail and the task-failed terminal. -/
def c2FailingRun : List (Ev × Node) :=
  [(Ev.ok, .cleanParametersPassState),
   (Ev.ok, .checkWorkflowAction),
   (Ev.branch 1, .ensureTableExistsTask),
   (Ev.ok, .describeContinuousBackupsAwsServiceTask),
   (Ev.ok, .pitrEnabledChoice),
   (Ev.branch 0, .initWorkflowStateChoice),
   (Ev.branch 3, .executeFullExport),
   (Ev.ok, .setFullExportTimeParameter),
   (Ev.ok, .setWorkflowActionParameterToRun),
   (Ev.fault .genericOther, .notifyOnTaskFailed),
   (Ev.ok, .taskFailedNode)]

/-- C3's claim as stated: every task-like state carries a States.ALL catch
routed to Notify-And-Fail. -/
def everyTasklikeStepHasCatchAll : Prop :=
  ∀ n : Node, isTasklike n = true → (Matcher.statesAll, Node.notifyOnTaskFailed) ∈ catchers n

/-- C1: for every cycle that reaches the PITR-enabled choice (WorkflowAction
RUN, PITR enabled), the decision matches the claimed strict priority
cascade, the five prioritized guards are exhaustive and pairwise disjoint
(exactly one holds), the decision is one of the four PITR-enabled outcomes,
and the fault-free trace commits to exactly the state the decision names,
whichever branch the watermark-validity choice later takes; `decideCycle`
takes only the deciding tuple (WorkflowAction, PITR-enabled,
full-export-running, WorkflowState, WorkflowInitiated, reset-condition),
so the decision depends on nothing else.
The earlier Paused and PITR-disabled terminals are the two remaining
outcomes. -/
theorem c1_pitr_enabled_choice_priority :
    ∀ (fr : Bool) (ws : WorkflowState) (wi rc lv : Bool),
      decideCycle (keyOf ⟨.run, true, fr, ws, wi, rc, lv, false, false,
          .inProgress, .inProgress, false, false⟩) =
          claimedPriorityOutcome ⟨.run, true, fr, ws, wi, rc⟩ ∧
      (effectiveGuards ⟨.run, true, fr, ws, wi, rc⟩).count true = 1 ∧
      decideCycle ⟨.run, true, fr, ws, wi, rc⟩ ∈
        [CycleOutcome.waitFullExportRunning, .fullExportPath, .pitrGapNotify,
         .incrementalExportPath] ∧
      (decideCycle ⟨.run, true, fr, ws, wi, rc⟩ = .waitFullExportRunning ↔
        Node.notifyOnFullExportRunning ∈
          commitTrace ⟨.run, true, fr, ws, wi, rc, lv, false, false,
            .inProgress, .inProgress, false, false⟩) ∧
      (decideCycle ⟨.run, true, fr, ws, wi, rc⟩ = .fullExportPath ↔
        Node.executeFullExport ∈
          commitTrace ⟨.run, true, fr, ws, wi, rc, lv, false, false,
            .inProgress, .inProgress, false, false⟩) ∧
      (decideCycle ⟨.run, true, fr, ws, wi, rc⟩ = .pitrGapNotify ↔
        Node.notifyOnPitrGap ∈
          commitTrace ⟨.run, true, fr, ws, wi, rc, lv, false, false,
            .inProgress, .inProgress, false, false⟩) ∧
      (decideCycle ⟨.run, true, fr, ws, wi, rc⟩ = .incrementalExportPath ↔
        Node.getNextIncrementalExportTimeLambdaInvoke ∈
          commitTrace ⟨.run, true, fr, ws, wi, rc, lv, false, false,
            .inProgress, .inProgress, false, false⟩) ∧
      decideCycle ⟨.pause, true, fr, ws, wi, rc⟩ = .pausedOutcome ∧
      decideCycle ⟨.pause, false, fr, ws, wi, rc⟩ = .pausedOutcome ∧
      decideCycle ⟨.run, false, fr, ws, wi, rc⟩ = .pitrDisabledOutcome := by
  decide

set_option maxHeartbeats 1600000 in
/-- C5: in the incremental path (export needed), when the computed export
start time precedes the PITR earliest-restorable time, the cycle sets
WorkflowState=PITR_GAP (a write with bounded retry on Ssm.SdkClientException),
publishes the start-time-outside-PITR-window notification, terminates at
the Fail terminal of that route, and never invokes an export that
cycle. -/
theorem c5_pitr_gap_route :
    ∀ (rc lv : Bool) (earliestRestoreTime exportStartTime : Nat),
      exportStartTime < earliestRestoreTime →
      Node.setWorkflowStateParameterToPitrGap ∈ cycleTrace (incrementalScenario rc lv false
        (earliestRestoreDateTimeIsGreaterThanExportStartTime earliestRestoreTime exportStartTime)
        .inProgress .inProgress false false) ∧
      writesOf .setWorkflowStateParameterToPitrGap = some .workflowStatePitrGapWrite ∧
      Matcher.only .ssmSdkClient ∈ retriedErrors .setWorkflowStateParameterToPitrGap ∧
      Node.notifyOnIncrementalExportStartTimeOutsidePitrWindow ∈
        cycleTrace (incrementalScenario rc lv false
          (earliestRestoreDateTimeIsGreaterThanExportStartTime earliestRestoreTime exportStartTime)
          .inProgress .inProgress false false) ∧
      notifiesOf .notifyOnIncrementalExportStartTimeOutsidePitrWindow =
        some .startTimeOutsidePitrWindowNote ∧
      (cycleTrace (incrementalScenario rc lv false
          (earliestRestoreDateTimeIsGreaterThanExportStartTime earliestRestoreTime exportStartTime)
          .inProgress .inProgress false false)).getLast? =
        some .incrementalExportStartTimeOutsidePitrWindowFail ∧
      kind .incrementalExportStartTimeOutsidePitrWindowFail = .failEnd ∧
      ∀ n ∈ cycleTrace (incrementalScenario rc lv false
          (earliestRestoreDateTimeIsGreaterThanExportStartTime earliestRestoreTime exportStartTime)
          .inProgress .inProgress false false), isExportInvocation n = false := by
  intro rc lv earliestRestoreTime exportStartTime h
  rw [show earliestRestoreDateTimeIsGreaterThanExportStartTime earliestRestoreTime
        exportStartTime = true from by
      unfold earliestRestoreDateTimeIsGreaterThanExportStartTime
      exact decide_eq_true h]
  revert rc lv
  decide

/-- Witness for C5: start time 5, earliest restorable time 10. -/
theorem c5_pitr_gap_route_witness :
    Node.setWorkflowStateParameterToPitrGap ∈ cycleTrace (incrementalScenario false false false
      (earliestRestoreDateTimeIsGreaterThanExportStartTime 10 5)
      .inProgress .inProgress false false) :=
  (c5_pitr_gap_route false false 10 5 (by decide)).1

set_option maxHeartbeats 1600000 in
/-- C6: in the incremental path, when the computed window end time is at
or before the current time the cycle terminates at the export-not-needed
Succeed terminal with no export invocation; otherwise it proceeds to the
PITR-validity choice, and to the incremental export invocation when that
check passes. -/
theorem c6_export_not_needed :
    ∀ (rc lv ea : Bool) (endTime currentTime : Nat),
      (endTime ≤ currentTime →
        (cycleTrace (incrementalScenario rc lv
            (nextIncrementalExportEndTimeIsPastCurrentTime endTime currentTime)
            ea .inProgress .inProgress false false)).getLast? =
          some .incrementalExportNotNeeded ∧
        kind .incrementalExportNotNeeded = .succeedEnd ∧
        ∀ n ∈ cycleTrace (incrementalScenario rc lv
            (nextIncrementalExportEndTimeIsPastCurrentTime endTime currentTime)
            ea .inProgress .inProgress false false), isExportInvocation n = false) ∧
      (currentTime < endTime →
        Node.isEarliestRestoreDateTimeValidChoice ∈ cycleTrace (incrementalScenario rc lv
            (nextIncrementalExportEndTimeIsPastCurrentTime endTime currentTime)
            ea .inProgress .inProgress false false) ∧
        (ea = false → Node.executeIncrementalExport ∈ cycleTrace (incrementalScenario rc lv
            (nextIncrementalExportEndTimeIsPastCurrentTime endTime currentTime)
            ea .inProgress .inProgress false false))) := by
  intro rc lv ea endTime currentTime
  constructor
  · intro h
    rw [show nextIncrementalExportEndTimeIsPastCurrentTime endTime currentTime = true from by
        unfold nextIncrementalExportEndTimeIsPastCurrentTime
        exact decide_eq_true h]
    revert rc lv ea
    decide
  · intro h
    rw [show nextIncrementalExportEndTimeIsPastCurrentTime endTime currentTime = false from by
        unfold nextIncrementalExportEndTimeIsPastCurrentTime
        exact decide_eq_false (by omega)]
    revert rc lv ea
    decide

/-- Witness for C6: window end 3, current time 5. -/
theorem c6_export_not_needed_witness :
    (cycleTrace (incrementalScenario false false
        (nextIncrementalExportEndTimeIsPastCurrentTime 3 5)
        false .inProgress .inProgress false false)).getLast? =
      some .incrementalExportNotNeeded :=
  ((c6_export_not_needed false false false 3 5).1 (by decide)).1

/-- A string has positive length exactly when it is not empty. -/
theorem string_length_pos_iff_ne_empty (s : String) : 0 < s.length ↔ s ≠ "" := by
  rw [Nat.pos_iff_ne_zero]
  have hzero : s.length = 0 ↔ s = "" := by
    cases s with
    | mk data =>
      simp [String.length]
      constructor
      · intro h
        cases data with
        | nil => rfl
        | cons a l => simp at h
      · intro h
        have hdata : data = [] := by
          have := congrArg String.data h
          simpa using this
        simp [hdata]
  exact not_congr hzero

/-- C4: on a DynamoDb.InvalidExportTimeException, `executeIncrementalExport`
is retried up to 2 times at a fixed 1-minute spacing with backoff rate 1;
but because the States.ALL catcher was added before the
InvalidExportTimeException catcher, the catch-all is scanned first and a
persistent invalid-export-time failure is routed to Notify-And-Fail and the
task-failed terminal, not to the PITR_GAP fallback the dedicated (dead)
catcher names. -/
theorem c4_invalid_export_time_catch_shadowed :
    catchers .executeIncrementalExport =
        [(Matcher.statesAll, Node.notifyOnTaskFailed),
         (Matcher.only .ddbInvalidExportTime, Node.setWorkflowStateParameterToPitrGap)] ∧
    retriedErrors .executeIncrementalExport =
        [Matcher.only .ddbInvalidExportTime, Matcher.only .ddbSdkClient] ∧
    retryDelaysOf invalidExportTimeRetryPolicy = [60, 60] ∧
    resolveFault .executeIncrementalExport .ddbInvalidExportTime = some .notifyOnTaskFailed ∧
    succOk .notifyOnTaskFailed = some .taskFailedNode ∧
    kind .taskFailedNode = .failEnd := by
  refine ⟨rfl, rfl, by decide, by decide, rfl, rfl⟩

/-- C7: the WorkflowAction=RUN and WorkflowState=NORMAL writes route a
parameter-not-found error to the clear-WorkflowInitiated fallback, the
LastIncrementalExportTime deletion routes it straight to the full-export
polling task, the fallback continues the chain, and every other error
class on these three states is routed to Notify-And-Fail. -/
theorem c7_parameter_not_found_fallbacks :
    resolveFault .setWorkflowActionParameterToRun .ssmParamNotFound =
        some .setEmptyWorkflowInitiatedParameter ∧
    resolveFault .setWorkflowStateParameterToNormal .ssmParamNotFound =
        some .setEmptyWorkflowInitiatedParameter ∧
    resolveFault .deleteLastIncrementalExportTimeParameter .ssmParamNotFound =
        some .describeFullExport ∧
    writesOf .setEmptyWorkflowInitiatedParameter = some .workflowInitiatedClearWrite ∧
    succOk .setEmptyWorkflowInitiatedParameter = some .deleteLastIncrementalExportTimeParameter ∧
    succOk .describeFullExport = some .fullExportCompletedState ∧
    succOk .waitForFullExport = some .describeFullExport ∧
    (∀ e : ErrClass, e ≠ .ssmParamNotFound →
      resolveFault .setWorkflowActionParameterToRun e = some .notifyOnTaskFailed ∧
      resolveFault .setWorkflowStateParameterToNormal e = some .notifyOnTaskFailed ∧
      resolveFault .deleteLastIncrementalExportTimeParameter e = some .notifyOnTaskFailed) := by
  refine ⟨by decide, by decide, by decide, rfl, rfl, rfl, rfl, by decide⟩

/-- Witness for C7 at the unclassified error class. -/
theorem c7_parameter_not_found_fallbacks_witness :
    resolveFault .setWorkflowActionParameterToRun .genericOther = some .notifyOnTaskFailed :=
  (c7_parameter_not_found_fallbacks.2.2.2.2.2.2.2 .genericOther (by decide)).1

/-- C8: the provisioning-time validation accepts window sizes 15 and 1440,
rejects 14 and 1441 by throwing, and throws exactly outside [15, 1440]. -/
theorem c8_window_size_validation :
    sanityChecks 15 = .ok () ∧ sanityChecks 1440 = .ok () ∧
    throwsRangeError 14 = true ∧ throwsRangeError 1441 = true ∧
    ∀ w : Int, throwsRangeError w = true ↔ (w < 15 ∨ 1440 < w) := by
  refine ⟨rfl, rfl, rfl, rfl, ?_⟩
  intro w
  unfold throwsRangeError sanityChecks
  by_cases h : w < 15 ∨ w > 24 * 60
  · rw [if_pos h]
    constructor
    · intro _
      omega
    · intro _
      rfl
  · rw [if_neg h]
    constructor
    · intro hfalse
      simp at hfalse
    · intro hor
      exfalso
      omega

/-- C9: for every valid window size, the trigger schedule uses rate
floor(window/3) minutes, a 15-minute flexible window, at most 1 retry, and
a maximum event age of half the schedule period in seconds. -/
theorem c9_schedule_settings :
    ∀ w : Nat, 15 ≤ w → w ≤ 1440 →
      sanityChecks (w : Int) = .ok () ∧
      (scheduleFor w).rateMinutes = w / 3 ∧
      (scheduleFor w).flexibleWindowMinutes = 15 ∧
      (scheduleFor w).maximumRetryAttempts = 1 ∧
      (scheduleFor w).maximumEventAgeSeconds = (scheduleFor w).rateMinutes * 30 := by
  intro w h1 h2
  refine ⟨?_, rfl, rfl, rfl, ?_⟩
  · simp only [sanityChecks]
    rw [if_neg (by omega)]
  · show w / 3 * 60 / 2 = w / 3 * 30
    omega

/-- Witness for C9 at window size 15. -/
theorem c9_schedule_settings_witness :
    (scheduleFor 15).maximumEventAgeSeconds = (scheduleFor 15).rateMinutes * 30 :=
  (c9_schedule_settings 15 (by decide) (by decide)).2.2.2.2

/-- C10: the entry point creates one nested stack per comma-separated
entry whose trimmed name is non-empty, keeping kept entries untrimmed; the
deployment alias is suffixed with the lowercased last hyphen-separated
segment when the name is longer than 10 characters and with the lowercased
whole name otherwise, and the data-export bucket prefix is the shared
prefix, a slash, and the table name. -/
theorem c10_stack_per_table (cfg : AppConfig) :
    deployedStacks cfg =
      ((cfg.sourceDynamoDbTableName.splitOn ",").filter fun t => decide (t.trim ≠ "")).map
        fun t =>
          { deploymentAlias := cfg.deploymentAlias ++ "-" ++ specShortSuffix t
          , sourceDynamoDbTableName := t
          , dataExportBucketPfx := cfg.dataExportBucketPfx ++ "/" ++ t } := by
  unfold deployedStacks
  have hfilter :
      (cfg.sourceDynamoDbTableName.splitOn ",").filter (fun t => decide (t.trim.length > 0)) =
      (cfg.sourceDynamoDbTableName.splitOn ",").filter (fun t => decide (t.trim ≠ "")) := by
    apply List.filter_congr
    intro t _
    exact decide_eq_decide.mpr (string_length_pos_iff_ne_empty t.trim)
  rw [hfilter]
  apply List.map_congr_left
  intro t _
  have hshort : shortTableNameOf t = specShortSuffix t := by
    unfold shortTableNameOf specShortSuffix
    by_cases h : t.length > 10
    · rw [if_pos h, if_pos h]
    · rw [if_neg h, if_neg h]
  unfold stackForTable
  rw [hshort]

/-- Any edge into the task-failed terminal comes from Notify-And-Fail
completing normally. -/
theorem edge_into_taskFailedNode (a : Node) (ev : Ev) :
    edgeOK a ev .taskFailedNode = true → a = .notifyOnTaskFailed ∧ ev = Ev.ok := by
  revert a ev
  decide

/-- The only edge out of Notify-And-Fail goes to the task-failed
terminal. -/
theorem edge_from_notifyOnTaskFailed (ev : Ev) (m : Node) :
    edgeOK .notifyOnTaskFailed ev m = true → ev = Ev.ok ∧ m = .taskFailedNode := by
  revert ev m
  decide

/-- The task-failed terminal has no outgoing edge. -/
theorem no_edge_from_taskFailedNode (ev : Ev) (m : Node) :
    edgeOK .taskFailedNode ev m = true → False := by
  revert ev m
  decide

/-- A valid run from Notify-And-Fail that ends at the task-failed terminal
is exactly the single step to it, so it counts Notify-And-Fail once. -/
theorem notify_tail_count (rest : List (Ev × Node)) :
    chainOk .notifyOnTaskFailed rest = true →
    lastNode .notifyOnTaskFailed rest = .taskFailedNode →
    (visited .notifyOnTaskFailed rest).count .notifyOnTaskFailed = 1 := by
  intro hc hl
  match rest with
  | [] => simp [lastNode] at hl
  | (ev, m) :: rest2 =>
    simp only [chainOk, Bool.and_eq_true] at hc
    obtain ⟨hev, hm⟩ := edge_from_notifyOnTaskFailed ev m hc.1
    subst hev hm
    match rest2 with
    | [] => decide
    | (ev2, m2) :: rest3 =>
      exfalso
      have h3 : edgeOK .taskFailedNode ev2 m2 = true := by
        have := hc.2
        simp only [chainOk, Bool.and_eq_true] at this
        exact this.1
      exact no_edge_from_taskFailedNode ev2 m2 h3

/-- Every valid run that starts outside the failure pair and ends at the
task-failed terminal visits Notify-And-Fail exactly once. -/
theorem taskFailed_visits_notify_once (steps : List (Ev × Node)) :
    ∀ n : Node, chainOk n steps = true → n ≠ .taskFailedNode → n ≠ .notifyOnTaskFailed →
    lastNode n steps = .taskFailedNode →
    (visited n steps).count .notifyOnTaskFailed = 1 := by
  induction steps with
  | nil =>
    intro n hc h1 h2 hl
    exact absurd hl h1
  | cons p rest ih =>
    obtain ⟨ev, m⟩ := p
    intro n hc h1 h2 hl
    simp only [chainOk, Bool.and_eq_true] at hc
    have he : edgeOK n ev m = true := hc.1
    have hrest : chainOk m rest = true := hc.2
    have hl' : lastNode m rest = .taskFailedNode := hl
    have hvc : (visited n ((ev, m) :: rest)).count .notifyOnTaskFailed
        = (visited m rest).count .notifyOnTaskFailed := by
      show (n :: visited m rest).count .notifyOnTaskFailed = _
      simp [List.count_cons, h2]
    rw [hvc]
    by_cases hm1 : m = .notifyOnTaskFailed
    · subst hm1
      exact notify_tail_count rest hrest hl'
    · by_cases hm2 : m = .taskFailedNode
      · exfalso
        subst hm2
        exact h2 (edge_into_taskFailedNode n ev he).1
      · exact ih m hrest hm2 hm1 hl'

/-- C3 counterexample: the start-time-outside-PITR-window notification is
a task-like step whose Catch list is empty, so not every task-like step
has a States.ALL catch routed to Notify-And-Fail. -/
theorem c3_missing_catch_cex :
    isTasklike .notifyOnIncrementalExportStartTimeOutsidePitrWindow = true ∧
    catchers .notifyOnIncrementalExportStartTimeOutsidePitrWindow = [] ∧
    ¬ everyTasklikeStepHasCatchAll := by
  refine ⟨rfl, rfl, ?_⟩
  intro h
  exact absurd
    (h .notifyOnIncrementalExportStartTimeOutsidePitrWindow (by decide)) (by decide)

/-- C3 (amended): every task-like step except Notify-And-Fail itself and
the start-time-outside-PITR-window notification carries the States.ALL
catch routed to Notify-And-Fail; Notify-And-Fail publishes the failure
notification and leads to the task-failed Fail terminal, the only edges
into that terminal leave Notify-And-Fail, and every valid run from any
other state that ends at that terminal visits Notify-And-Fail exactly
once. -/
theorem c3_catch_coverage_amended :
    (∀ n : Node, isTasklike n = true → n ≠ .notifyOnTaskFailed →
      n ≠ .notifyOnIncrementalExportStartTimeOutsidePitrWindow →
      (Matcher.statesAll, Node.notifyOnTaskFailed) ∈ catchers n) ∧
    succOk .notifyOnTaskFailed = some .taskFailedNode ∧
    kind .taskFailedNode = .failEnd ∧
    notifiesOf .notifyOnTaskFailed = some .taskFailedNote ∧
    (∀ (a : Node) (ev : Ev), edgeOK a ev .taskFailedNode = true →
      a = .notifyOnTaskFailed ∧ ev = Ev.ok) ∧
    (∀ (steps : List (Ev × Node)) (n : Node),
      chainOk n steps = true → n ≠ .taskFailedNode → n ≠ .notifyOnTaskFailed →
      lastNode n steps = .taskFailedNode →
      (visited n steps).count .notifyOnTaskFailed = 1) := by
  refine ⟨by decide, rfl, rfl, rfl, edge_into_taskFailedNode, ?_⟩
  intro steps n
  exact taskFailed_visits_notify_once steps n

/-- Witness for C3 at a concrete failing run of the parameter read. -/
theorem c3_catch_coverage_amended_witness :
    (Matcher.statesAll, Node.notifyOnTaskFailed) ∈ catchers .getParametersTask ∧
    (visited .getParametersTask
        [(Ev.fault .genericOther, .notifyOnTaskFailed), (Ev.ok, .taskFailedNode)]).count
      .notifyOnTaskFailed = 1 :=
  ⟨c3_catch_coverage_amended.1 .getParametersTask (by decide) (by decide) (by decide),
   c3_catch_coverage_amended.2.2.2.2.2
     [(Ev.fault .genericOther, .notifyOnTaskFailed), (Ev.ok, .taskFailedNode)]
     .getParametersTask (by decide) (by decide) (by decide) (by decide)⟩

/-- C2 counterexample: a valid run enters the full-export path, performs
the FullExportTime write, and then terminates at the task-failed terminal
without ever taking the completed branch of the full-export polling
choice; so FullExportTime is not set only after the full export
completes. -/
theorem c2_fullExportTime_before_completion_cex :
    chainOk .getParametersTask c2FailingRun = true ∧
    Node.setFullExportTimeParameter ∈ visited .getParametersTask c2FailingRun ∧
    lastNode .getParametersTask c2FailingRun = .taskFailedNode ∧
    (Ev.branch 0, Node.workflowInitializedParameterTrue) ∉ c2FailingRun ∧
    ¬ fullExportTimeOnlyAfterCompletion := by
  refine ⟨by decide, by decide, by decide, by decide, ?_⟩
  intro h
  exact absurd (h c2FailingRun (by decide) (by decide)) (by decide)

/-- C2 (amended): the watermark writes happen directly after the
corresponding export invocation succeeds, before the job completes: the
only edge into the FullExportTime write leaves a successful
`executeFullExport`, the only edge into the LastIncrementalExportTime
write leaves a successful `executeIncrementalExport`, and re-run safety
comes from the completion flag instead — WorkflowInitiated is cleared on
the way to polling and its outcome write is reachable only through the
polling choice, whose completed branch is taken exactly when the full
export job is observed COMPLETED. -/
theorem c2_watermark_write_ordering :
    (∀ (a : Node) (ev : Ev), edgeOK a ev .setFullExportTimeParameter = true →
      a = .executeFullExport ∧ ev = Ev.ok) ∧
    (∀ (a : Node) (ev : Ev), edgeOK a ev .setLastIncrementalExportTimeParameter = true →
      a = .executeIncrementalExport ∧ ev = Ev.ok) ∧
    (∀ (a : Node) (ev : Ev), edgeOK a ev .workflowInitializedParameterTrue = true →
      a = .fullExportCompletedState ∧ ev = Ev.branch 0) ∧
    (∀ env : CondEnv, choiceSel env .fullExportCompletedState = 0 ↔
      env.fullExportJobStatus = .completed) ∧
    (∀ (a : Node) (ev : Ev), edgeOK a ev .setWorkflowInitiatedParameter = true →
      (a = .workflowInitializedParameterTrue ∨ a = .workflowInitializedParameterFalse) ∧
      ev = Ev.ok) ∧
    writesOf .setFullExportTimeParameter = some .fullExportTimeWrite ∧
    writesOf .setLastIncrementalExportTimeParameter = some .lastIncrementalExportTimeWrite ∧
    writesOf .setEmptyWorkflowInitiatedParameter = some .workflowInitiatedClearWrite ∧
    writesOf .setWorkflowInitiatedParameter = some .workflowInitiatedOutcomeWrite ∧
    succOk .setFullExportTimeParameter = some .setWorkflowActionParameterToRun ∧
    succOk .setWorkflowActionParameterToRun = some .setWorkflowStateParameterToNormal ∧
    succOk .setWorkflowStateParameterToNormal = some .setEmptyWorkflowInitiatedParameter ∧
    succOk .setEmptyWorkflowInitiatedParameter = some .deleteLastIncrementalExportTimeParameter ∧
    succOk .deleteLastIncrementalExportTimeParameter = some .describeFullExport := by
  refine ⟨by decide, by decide, by decide, ?_, by decide,
    rfl, rfl, rfl, rfl, rfl, rfl, rfl, rfl, rfl⟩
  intro env
  cases h : env.fullExportJobStatus <;> simp [choiceSel, h]

/-- Witness for C2 at an environment whose full-export job is observed
COMPLETED. -/
theorem c2_watermark_write_ordering_witness :
    choiceSel ⟨.run, true, false, .normal, true, false, false, false, false, .inProgress,
      .completed, false, false⟩ .fullExportCompletedState = 0 :=
  (c2_watermark_write_ordering.2.2.2.1 _).mpr rfl

end DdbIncExport
